import Mathlib

/-!
Verification of `tensorflow_datasets/text/yelp_polarity.py`.

The file embeds the original logic of that module: the per-line record
extraction performed by `YelpPolarityReviews._generate_examples`
(`text = line[5:-2].strip()`, `label = line[1]`), the vocabulary text
generator `_vocab_text_gen`, the static `BUILDER_CONFIGS` table, and the
split declaration made by `_split_generators`.

Python strings are embedded as `List Char`; Python indexing that can raise
`IndexError` is embedded with `Except`.
-/

namespace YelpPolarity

/-- A Python string, embedded as its list of characters. -/
abbrev PyStr := List Char

/-- The only Python exception the embedded code can raise:
`line[1]` raises `IndexError` when the line has fewer than 2 characters. -/
inductive PyError where
  | indexError
  deriving DecidableEq, Repr

/-- One record yielded by `_generate_examples`: the dict
`{"text": ..., "label": ...}` of the source. -/
structure Record where
  text : PyStr
  label : Char
  deriving DecidableEq, Repr

/-- The characters removed by Python `str.strip()` (the ASCII whitespace
subset, which is all that can occur in the byte-oriented CSV input). -/
def isPySpace (c : Char) : Bool :=
  c = ' ' || c = '\t' || c = '\n' || c = '\r' || c = '\x0b' || c = '\x0c'

/-- Python `s.strip()`: remove leading and trailing whitespace. -/
def pyStrip (s : PyStr) : PyStr :=
  ((s.dropWhile isPySpace).reverse.dropWhile isPySpace).reverse

/-- Python `s[5:-2]`: the stop index `-2` is converted to `len - 2`
(clamped at 0, which `Nat` subtraction gives for free), the start index 5
is clamped to the length (which `List.drop` gives for free), and an empty
slice results when stop is at or before start. -/
def sliceFiveToMinusTwo (s : PyStr) : PyStr :=
  (s.take (s.length - 2)).drop 5

/-- The loop body of `_generate_examples` applied to one line:
`{"text": line[5:-2].strip(), "label": line[1]}`.  The slice never raises;
`line[1]` raises `IndexError` when the line has fewer than 2 characters. -/
def extractLine (line : PyStr) : Except PyError Record :=
  match line.get? 1 with
  | some c => .ok { text := pyStrip (sliceFiveToMinusTwo line), label := c }
  | none => .error .indexError

/-- `YelpPolarityReviews._generate_examples` over the lines of the file:
yields one record per line, in order; an `IndexError` raised on some line
aborts the generator there. -/
def generate_examples : List PyStr → Except PyError (List Record)
  | [] => .ok []
  | line :: rest => do
    let r ← extractLine line
    let rs ← generate_examples rest
    pure (r :: rs)

/-- `YelpPolarityReviews._vocab_text_gen`:
`for ex in self._generate_examples(train_file): yield ex["text"]`. -/
def vocab_text_gen : List PyStr → Except PyError (List PyStr)
  | [] => .ok []
  | line :: rest => do
    let r ← extractLine line
    let ts ← vocab_text_gen rest
    pure (r.text :: ts)

/-- Splitting file contents into the lines Python file iteration yields:
each line keeps its terminating newline; a final segment without a
newline is yielded only when nonempty. -/
def pyLinesAux : PyStr → PyStr → List PyStr
  | acc, [] => if acc.isEmpty then [] else [acc.reverse]
  | acc, c :: cs =>
    if c = '\n' then (acc.reverse ++ ['\n']) :: pyLinesAux [] cs
    else pyLinesAux (c :: acc) cs

/-- The sequence of lines Python `for line in f` yields when the file
holds `contents`. -/
def pyLines (contents : PyStr) : List PyStr := pyLinesAux [] contents

/-- A well-formed input line `"L","T"` followed by a newline. -/
def mkLine (L : Char) (T : PyStr) : PyStr :=
  '"' :: L :: '"' :: ',' :: '"' :: (T ++ ['"', '\n'])

/-- Whether `pat` occurs as a contiguous subsequence of `s` (used to state
the side condition that the text body holds no literal quote-comma-quote). -/
def containsSeq (pat s : PyStr) : Bool :=
  s.tails.any (fun t => pat.isPrefixOf t)

/-- The names of `ClassLabel(names=["1", "2"])` declared by `_info`. -/
def class_label_names : List String := ["1", "2"]

/-- A text encoder configuration as built in `BUILDER_CONFIGS`:
either the default, or `encoder=ByteTextEncoder()`, or
`encoder_cls=SubwordTextEncoder` with a target `vocab_size`. -/
inductive EncoderSetting where
  | default
  | byteTextEncoder
  | subwordTextEncoder (vocab_size : Nat)
  deriving DecidableEq, Repr

/-- One `YelpPolarityReviewsConfig` entry. -/
structure ReviewsConfig where
  name : String
  version : String
  description : String
  text_encoder_config : EncoderSetting
  deriving DecidableEq, Repr

/-- `YelpPolarityReviews.BUILDER_CONFIGS`. -/
def BUILDER_CONFIGS : List ReviewsConfig :=
  [ { name := "plain_text", version := "0.1.0", description := "Plain text",
      text_encoder_config := .default },
    { name := "bytes", version := "0.1.0",
      description := "Uses byte-level text encoding",
      text_encoder_config := .byteTextEncoder },
    { name := "subwords8k", version := "0.1.0",
      description := "Uses SubwordTextEncoder with 8k vocab size",
      text_encoder_config := .subwordTextEncoder (2 ^ 13) },
    { name := "subwords32k", version := "0.1.0",
      description := "Uses SubwordTextEncoder with 32k vocab size",
      text_encoder_config := .subwordTextEncoder (2 ^ 15) } ]

/-- The target vocabulary size a config reports, when it has one. -/
def targetVocabSize : EncoderSetting → Option Nat
  | .subwordTextEncoder v => some v
  | _ => none

/-- `os.path.join(a, b)` for POSIX paths, as used in `_split_generators`:
an absolute `b` replaces `a`; otherwise `b` is appended, inserting a
separator unless `a` is empty or already ends with one. -/
def pyPathJoin (a b : PyStr) : PyStr :=
  if ['/'].isPrefixOf b then b
  else if a.isEmpty then b
  else if a.getLast? = some '/' then a ++ b
  else a ++ '/' :: b

/-- One `tfds.core.SplitGenerator` as constructed in `_split_generators`. -/
structure SplitGenerator where
  name : String
  num_shards : Nat
  file : PyStr
  deriving DecidableEq, Repr

/-- What `_split_generators` does after download/extract: the file it
streams through `_vocab_text_gen` into `maybe_build_from_corpus`, and the
list of split generators it returns. -/
structure SplitGeneratorsResult where
  vocab_corpus_file : PyStr
  splits : List SplitGenerator
  deriving DecidableEq, Repr

/-- `YelpPolarityReviews._split_generators`, with the extracted archive
directory `arch_path` abstracting `dl_manager.download_and_extract(...)`. -/
def split_generators (arch_path : PyStr) : SplitGeneratorsResult :=
  let train_file := pyPathJoin (pyPathJoin arch_path "yelp_review_polarity_csv".toList) "train.csv".toList
  let test_file := pyPathJoin (pyPathJoin arch_path "yelp_review_polarity_csv".toList) "test.csv".toList
  { vocab_corpus_file := train_file,
    splits :=
      [ { name := "train", num_shards := 10, file := train_file },
        { name := "test", num_shards := 10, file := test_file } ] }

/-- Contents of a small two-line example file, used to instantiate the
general theorems below at a concrete input. -/
def sampleContents : PyStr := "\"1\",\"a\"\n\"2\",\"b\"\n".toList

/-! ## Helper lemmas -/

lemma mkLine_eq_append (L : Char) (T : PyStr) :
    mkLine L T = ['"', L, '"', ',', '"'] ++ (T ++ ['"', '\n']) := rfl

lemma sliceFiveToMinusTwo_mkLine (L : Char) (T : PyStr) :
    sliceFiveToMinusTwo (mkLine L T) = T := by
  rw [mkLine_eq_append]
  unfold sliceFiveToMinusTwo
  have h1 : (['"', L, '"', ',', '"'] ++ (T ++ ['"', '\n'])).length - 2
      = (['"', L, '"', ',', '"'] : List Char).length + T.length := by
    simp only [List.length_append, List.length_cons, List.length_nil]
    omega
  rw [h1, List.take_append, List.take_left]
  show List.drop (['"', L, '"', ',', '"'] : List Char).length
      (['"', L, '"', ',', '"'] ++ T) = T
  exact List.drop_left _ _

lemma extractLine_mkLine (L : Char) (T : PyStr) :
    extractLine (mkLine L T) = .ok { text := pyStrip T, label := L } := by
  have h : extractLine (mkLine L T)
      = .ok { text := pyStrip (sliceFiveToMinusTwo (mkLine L T)), label := L } := rfl
  rw [h, sliceFiveToMinusTwo_mkLine]

lemma extractLine_ok_of_two_le (line : PyStr) (h : 2 ≤ line.length) :
    ∃ r, extractLine line = .ok r := by
  cases line with
  | nil => simp at h
  | cons a t =>
    cases t with
    | nil => simp at h
    | cons b t' => exact ⟨_, rfl⟩

lemma generate_examples_cons (l : PyStr) (ls : List PyStr) :
    generate_examples (l :: ls) = (extractLine l).bind fun r =>
      (generate_examples ls).bind fun rs => .ok (r :: rs) := rfl

lemma vocab_text_gen_cons (l : PyStr) (ls : List PyStr) :
    vocab_text_gen (l :: ls) = (extractLine l).bind fun r =>
      (vocab_text_gen ls).bind fun ts => .ok (r.text :: ts) := rfl

lemma pyPathJoin_rel (a b : PyStr) (h₁ : a ≠ []) (h₂ : a.getLast? ≠ some '/')
    (hb : ['/'].isPrefixOf b = false) :
    pyPathJoin a b = a ++ '/' :: b := by
  unfold pyPathJoin
  rw [if_neg (by simp [hb]), if_neg (by simp [h₁]), if_neg h₂]

lemma pyPathJoin_ne_of_ne (p b c : PyStr) (hb : ['/'].isPrefixOf b = false)
    (hc : ['/'].isPrefixOf c = false) (hbc : b ≠ c) :
    pyPathJoin p b ≠ pyPathJoin p c := by
  have hbeq : pyPathJoin p b
      = if p.isEmpty then b else if p.getLast? = some '/' then p ++ b else p ++ '/' :: b := by
    unfold pyPathJoin
    rw [if_neg (by simp [hb])]
  have hceq : pyPathJoin p c
      = if p.isEmpty then c else if p.getLast? = some '/' then p ++ c else p ++ '/' :: c := by
    unfold pyPathJoin
    rw [if_neg (by simp [hc])]
  rw [hbeq, hceq]
  split_ifs with hp hl
  · exact hbc
  · intro hcon
    exact hbc (List.append_cancel_left hcon)
  · intro hcon
    have h3 := List.append_cancel_left hcon
    injection h3 with _ h4
    exact hbc h4

/-! ## Claim theorems -/

/-- Claim C1: for every input line of the exact form `"L","T"` followed by a
newline, where `L` is a single digit character and the body `T` holds no
literal quote-comma-quote sequence, `_generate_examples` applied to that
line produces the record with `text = T.strip()` and `label = L`. -/
theorem extract_wellformed_line (L : Char) (T : PyStr)
    (hL : L.isDigit = true) (hT : containsSeq ['"', ',', '"'] T = false) :
    extractLine (mkLine L T) = .ok { text := pyStrip T, label := L } :=
  extractLine_mkLine L T

/-- Witness for C1 at `L = '1'`, `T = "ab"`. -/
theorem extract_wellformed_line_witness :
    (('1').isDigit = true ∧ containsSeq ['"', ',', '"'] ['a', 'b'] = false) ∧
      extractLine (mkLine '1' ['a', 'b'])
        = .ok { text := pyStrip ['a', 'b'], label := '1' } :=
  ⟨⟨by decide, by decide⟩, extract_wellformed_line '1' ['a', 'b'] (by decide) (by decide)⟩

/-- Claim C2 counterexample: on the blank line consisting of a single newline
character (shorter than the 7-character minimum), the extractor does not
produce a record: `line[1]` raises `IndexError`. -/
theorem extract_blank_line_raises :
    extractLine ['\n'] = .error .indexError ∧ (['\n'] : PyStr).length < 7 :=
  ⟨rfl, by decide⟩

/-- Claim C2 (amended): for every input line with at least two characters,
including otherwise malformed lines, the extractor does not raise and
produces some (possibly incorrect) record; a line with fewer than two
characters makes the label access `line[1]` raise `IndexError`. -/
theorem extract_no_raise_of_two_chars (line : PyStr) (h : 2 ≤ line.length) :
    ∃ r, extractLine line = .ok r :=
  extractLine_ok_of_two_le line h

/-- Witness for C2 (amended) at the malformed two-character line `"1`. -/
theorem extract_no_raise_of_two_chars_witness :
    2 ≤ (['"', '1'] : PyStr).length ∧ ∃ r, extractLine ['"', '1'] = .ok r :=
  ⟨by decide, extract_no_raise_of_two_chars ['"', '1'] (by decide)⟩

/-- Claim C3: on the minimal 7-character line `"1",""` followed by a newline,
the extractor does not raise and yields the record with empty text and
label `'1'`. -/
theorem extract_minimal_line :
    extractLine ("\"1\",\"\"\n".toList) = .ok { text := [], label := '1' } := rfl

/-- Claim C4: on the line `"2","Great service, fast!"` the extractor outputs
text `Great service, fast!` with label `'2'`, and on `"1","Terrible food."`
it outputs text `Terrible food.` with label `'1'` (each line read from the
file with its terminating newline). -/
theorem extract_scenario_lines :
    extractLine ("\"2\",\"Great service, fast!\"\n".toList)
        = .ok { text := "Great service, fast!".toList, label := '2' } ∧
      extractLine ("\"1\",\"Terrible food.\"\n".toList)
        = .ok { text := "Terrible food.".toList, label := '1' } :=
  ⟨rfl, rfl⟩

/-- Claim C5 counterexample: the extractor performs no validation of the
label alphabet: on the line `"3","x"` followed by a newline it produces a
record whose label `'3'` is not one of the declared class tokens. -/
theorem extract_label_outside_class_tokens :
    extractLine ("\"3\",\"x\"\n".toList) = .ok { text := ['x'], label := '3' } ∧
      String.singleton '3' ∉ class_label_names :=
  ⟨rfl, by decide⟩

/-- Claim C5 (amended): for every record produced by the extractor from a
well-formed line `"L","T"` followed by a newline whose label token `L` is
one of the two class tokens `'1'`, `'2'`, the label field is one of the
declared class names and the text field is the body `T` with its
delimiters dropped and leading/trailing whitespace stripped; for other
lines the extractor does not enforce the label alphabet. -/
theorem record_invariant_wellformed (L : Char) (T : PyStr)
    (hL : L = '1' ∨ L = '2') :
    ∃ r, extractLine (mkLine L T) = .ok r ∧
      String.singleton r.label ∈ class_label_names ∧ r.text = pyStrip T := by
  refine ⟨{ text := pyStrip T, label := L }, extractLine_mkLine L T, ?_, rfl⟩
  rcases hL with h | h
  · rw [h]
    show String.singleton '1' ∈ class_label_names
    decide
  · rw [h]
    show String.singleton '2' ∈ class_label_names
    decide

/-- Witness for C5 (amended) at `L = '2'`, `T = "hi"`. -/
theorem record_invariant_wellformed_witness :
    ('2' = '1' ∨ '2' = '2') ∧
      ∃ r, extractLine (mkLine '2' ['h', 'i']) = .ok r ∧
        String.singleton r.label ∈ class_label_names ∧ r.text = pyStrip ['h', 'i'] :=
  ⟨Or.inr rfl, record_invariant_wellformed '2' ['h', 'i'] (Or.inr rfl)⟩

/-- Claim C6: the extractor is deterministic: running `_generate_examples`
over two independent reads of identical file contents yields two identical
ordered sequences of records. -/
theorem generate_examples_deterministic (c₁ c₂ : PyStr) (h : c₁ = c₂) :
    generate_examples (pyLines c₁) = generate_examples (pyLines c₂) := by
  rw [h]

/-- Witness for C6 at a concrete two-line file. -/
theorem generate_examples_deterministic_witness :
    sampleContents = sampleContents ∧
      generate_examples (pyLines sampleContents)
        = generate_examples (pyLines sampleContents) :=
  ⟨rfl, generate_examples_deterministic sampleContents sampleContents rfl⟩

/-- Claim C7 counterexample: the one-line file consisting of a single blank
line makes the generator raise `IndexError`, so it does not produce a
sequence of exactly one record. -/
theorem generate_examples_short_line_file :
    (pyLines ['\n']).length = 1 ∧
      generate_examples (pyLines ['\n']) = .error .indexError :=
  ⟨rfl, rfl⟩

/-- Claim C7 (amended): for every input file all of whose lines have at
least two characters, `_generate_examples` produces exactly one record per
input line, in file order, the i-th record extracted from the i-th line;
a file holding a shorter line makes the generator raise `IndexError`
instead of completing. -/
theorem generate_examples_one_record_per_line (lines : List PyStr)
    (h : ∀ l ∈ lines, 2 ≤ l.length) :
    ∃ rs, generate_examples lines = .ok rs ∧ rs.length = lines.length ∧
      ∀ i, rs.get? i = (lines.get? i).bind fun l => (extractLine l).toOption := by
  induction lines with
  | nil => exact ⟨[], rfl, rfl, fun i => rfl⟩
  | cons l ls ih =>
    obtain ⟨r, hr⟩ := extractLine_ok_of_two_le l (h l (List.mem_cons_self l ls))
    obtain ⟨rs, hrs, hlen, hget⟩ := ih fun x hx => h x (List.mem_cons_of_mem l hx)
    refine ⟨r :: rs, ?_, ?_, ?_⟩
    · rw [generate_examples_cons, hr, hrs]
      rfl
    · simp [hlen]
    · intro i
      cases i with
      | zero =>
        show some r = (extractLine l).toOption
        rw [hr]
        rfl
      | succ n => exact hget n

/-- Witness for C7 (amended) at a concrete one-line file. -/
theorem generate_examples_one_record_per_line_witness :
    (∀ l ∈ [("\"1\",\"a\"\n".toList : PyStr)], 2 ≤ l.length) ∧
      ∃ rs, generate_examples [("\"1\",\"a\"\n".toList : PyStr)] = .ok rs ∧
        rs.length = [("\"1\",\"a\"\n".toList : PyStr)].length ∧
        ∀ i, rs.get? i = ([("\"1\",\"a\"\n".toList : PyStr)].get? i).bind
          fun l => (extractLine l).toOption :=
  ⟨by decide, generate_examples_one_record_per_line _ (by decide)⟩

/-- Claim C8: the declared variant `subwords8k` has target vocabulary size
exactly 8192 and the variant `subwords32k` exactly 32768. -/
theorem builder_configs_vocab_sizes :
    (BUILDER_CONFIGS.find? (fun c => c.name == "subwords8k")).map
        (fun c => targetVocabSize c.text_encoder_config) = some (some 8192) ∧
      (BUILDER_CONFIGS.find? (fun c => c.name == "subwords32k")).map
        (fun c => targetVocabSize c.text_encoder_config) = some (some 32768) :=
  ⟨rfl, rfl⟩

/-- Claim C9: `_split_generators` declares exactly the two partitions
`train` and `test`, bound to the relative paths
`yelp_review_polarity_csv/train.csv` and `yelp_review_polarity_csv/test.csv`
inside the extracted archive directory, and to no other files. -/
theorem split_generators_partitions (arch : PyStr) (h₁ : arch ≠ [])
    (h₂ : arch.getLast? ≠ some '/') :
    (split_generators arch).splits =
      [ { name := "train", num_shards := 10,
          file := arch ++ "/yelp_review_polarity_csv/train.csv".toList },
        { name := "test", num_shards := 10,
          file := arch ++ "/yelp_review_polarity_csv/test.csv".toList } ] := by
  have hY : pyPathJoin arch "yelp_review_polarity_csv".toList
      = arch ++ '/' :: "yelp_review_polarity_csv".toList :=
    pyPathJoin_rel _ _ h₁ h₂ (by decide)
  have hne : (arch ++ '/' :: "yelp_review_polarity_csv".toList) ≠ [] := by simp
  have hlast : (arch ++ '/' :: "yelp_review_polarity_csv".toList).getLast? ≠ some '/' := by
    rw [List.getLast?_append_of_ne_nil _ (by simp)]
    decide
  simp only [split_generators]
  rw [hY, pyPathJoin_rel _ "train.csv".toList hne hlast (by decide),
    pyPathJoin_rel _ "test.csv".toList hne hlast (by decide)]
  simp only [List.append_assoc]
  rfl

/-- Witness for C9 at the archive directory `/x`. -/
theorem split_generators_partitions_witness :
    ((['/', 'x'] : PyStr) ≠ [] ∧ (['/', 'x'] : PyStr).getLast? ≠ some '/') ∧
      (split_generators ['/', 'x']).splits =
        [ { name := "train", num_shards := 10,
            file := ['/', 'x'] ++ "/yelp_review_polarity_csv/train.csv".toList },
          { name := "test", num_shards := 10,
            file := ['/', 'x'] ++ "/yelp_review_polarity_csv/test.csv".toList } ] :=
  ⟨⟨by decide, by decide⟩, split_generators_partitions ['/', 'x'] (by decide) (by decide)⟩

/-- Claim C10: `_vocab_text_gen` yields exactly the text fields of the
records `_generate_examples` produces on the same file, in the same order;
and `_split_generators` invokes the vocabulary-building pass with the
train file only, never the test file. -/
theorem vocab_text_gen_spec :
    (∀ lines : List PyStr, vocab_text_gen lines
        = (generate_examples lines).map fun rs => rs.map Record.text) ∧
      ∀ arch : PyStr,
        (split_generators arch).vocab_corpus_file
            = pyPathJoin (pyPathJoin arch "yelp_review_polarity_csv".toList)
                "train.csv".toList ∧
          (split_generators arch).vocab_corpus_file
              ≠ pyPathJoin (pyPathJoin arch "yelp_review_polarity_csv".toList)
                  "test.csv".toList := by
  constructor
  · intro lines
    induction lines with
    | nil => rfl
    | cons l ls ih =>
      rw [vocab_text_gen_cons, generate_examples_cons, ih]
      cases hE : extractLine l with
      | error e => rfl
      | ok r =>
        cases hG : generate_examples ls with
        | error e => rfl
        | ok rs => rfl
  · intro arch
    refine ⟨rfl, ?_⟩
    show pyPathJoin (pyPathJoin arch "yelp_review_polarity_csv".toList) "train.csv".toList
        ≠ pyPathJoin (pyPathJoin arch "yelp_review_polarity_csv".toList) "test.csv".toList
    exact pyPathJoin_ne_of_ne _ _ _ (by decide) (by decide) (by decide)

end YelpPolarity
